import Mathlib

/-
Verification of the backend-management plane of the generative-img-serving
gateway (Rust). The definitions below are a shallow embedding of the source:

  * src/config/settings.rs    — configuration record and enums
  * src/backend/text_backend.rs — per-endpoint health state, the
    OpenAI-compatible adapter (chat/text completion, list_models, status)
  * src/backend/text_registry.rs — text registry (name → adapter plus
    model → name mapping)
  * src/backend/registry.rs   — image registry
  * src/api/models.rs         — GenerateImageRequest::parse_size
  * src/api/handlers.rs       — add_backend protocol / backend-type parsing

Machine integers (u32, u64) are modelled as Nat with explicit 2^32 bounds
where overflow matters (str::parse::<u32>). Concurrent maps (DashMap) are
modelled as association lists in iteration order; locks disappear because
each operation is embedded as a pure state transformer. Timestamps
(std::time::Instant) carry no information the claims need and are modelled
as Option Unit (presence of a last check only). Fallible operations return
Except AppError; the error enum src/error.rs is not among the provided
sources and is modelled from the spec (section 7) and its call sites.
-/

namespace GenImgServing

/-- Modelled from the spec: the error enum `AppError` of src/error.rs, which is
not among the provided sources. Variants and payloads follow spec section 7
(error kinds) and the call sites in the provided files. The `HttpClient`
variant wraps a transport error object in the source; the object itself is
not modelled. -/
inductive AppError where
  | InvalidRequest (msg : String)
  | BackendNotFound (name : String)
  | NoHealthyBackends (msg : String)
  | BackendError (msg : String)
  | HttpClient
  | Config (msg : String)
  | Internal (msg : String)
deriving DecidableEq, Repr

/-- Backend type enum from src/config/settings.rs. -/
inductive BackendType where
  | Image
  | Text
  | Multi
deriving DecidableEq, Repr

/-- Protocol type enum from src/config/settings.rs. -/
inductive ProtocolType where
  | Http
  | Grpc
  | OpenAI
  | Anthropic
  | Tgi
deriving DecidableEq, Repr

/-- BackendAuth from src/config/settings.rs. Default field values mirror the
serde defaults. -/
structure BackendAuth where
  auth_type : String := "none"
  token_env : Option String := none
  header_name : Option String := none
  api_key : Option String := none
deriving DecidableEq, Repr

/-- BackendHealthCheck from src/config/settings.rs. -/
structure BackendHealthCheck where
  path : String := "/health"
  interval_secs : Nat := 30
  timeout_secs : Nat := 5
deriving DecidableEq, Repr

/-- BackendLoadBalancer from src/config/settings.rs. -/
structure BackendLoadBalancer where
  strategy : String := "round_robin"
  weight : Nat := 1
deriving DecidableEq, Repr

/-- BackendConfig from src/config/settings.rs. Default field values mirror the
serde defaults of the source. -/
structure BackendConfig where
  name : String
  backend_type : BackendType := BackendType.Image
  protocol : ProtocolType := ProtocolType.Http
  endpoints : List String
  enabled : Bool := true
  auth : BackendAuth := {}
  health_check : BackendHealthCheck := {}
  load_balancer : BackendLoadBalancer := {}
  models : List String := []
  capabilities : List String := []
  health_check_path : String := "/health"
  health_check_interval_secs : Nat := 30
  timeout_ms : Nat := 60000
  weight : Nat := 1
deriving DecidableEq, Repr

/-- TextEndpoint from src/backend/text_backend.rs (lines 133-139). The
`last_check` field holds `std::time::Instant` in the source; only its
presence is representable here, so it is modelled as `Option Unit`. -/
structure TextEndpoint where
  url : String
  healthy : Bool
  last_check : Option Unit
  consecutive_failures : Nat
deriving DecidableEq, Repr

/-- TextEndpoint::new (src/backend/text_backend.rs lines 142-149). -/
def TextEndpoint.new (url : String) : TextEndpoint :=
  { url := url, healthy := true, last_check := none, consecutive_failures := 0 }

/-- TextEndpoint::mark_healthy (src/backend/text_backend.rs lines 151-155). -/
def TextEndpoint.mark_healthy (e : TextEndpoint) : TextEndpoint :=
  { e with healthy := true, last_check := some (), consecutive_failures := 0 }

/-- TextEndpoint::mark_unhealthy (src/backend/text_backend.rs lines 157-163):
increment the failure counter, flip `healthy` to false once the counter
reaches 3, record the check time. -/
def TextEndpoint.mark_unhealthy (e : TextEndpoint) : TextEndpoint :=
  { e with consecutive_failures := e.consecutive_failures + 1,
           healthy := if e.consecutive_failures + 1 ≥ 3 then false else e.healthy,
           last_check := some () }

/-- The two health-mutating operations on a TextEndpoint. -/
inductive EndpointOp where
  | markHealthy
  | markUnhealthy
deriving DecidableEq, Repr

/-- Apply one health operation to an endpoint. -/
def TextEndpoint.applyOp (e : TextEndpoint) : EndpointOp → TextEndpoint
  | EndpointOp.markHealthy => e.mark_healthy
  | EndpointOp.markUnhealthy => e.mark_unhealthy

/-- Apply a sequence of health operations left to right. -/
def TextEndpoint.run (e : TextEndpoint) (ops : List EndpointOp) : TextEndpoint :=
  ops.foldl TextEndpoint.applyOp e

lemma TextEndpoint.applyOp_invariant (e : TextEndpoint)
    (h : e.healthy = false → 3 ≤ e.consecutive_failures) (op : EndpointOp) :
    (e.applyOp op).healthy = false → 3 ≤ (e.applyOp op).consecutive_failures := by
  cases op with
  | markHealthy => intro hfalse; simp [TextEndpoint.applyOp, TextEndpoint.mark_healthy] at hfalse
  | markUnhealthy =>
      intro hfalse
      simp only [TextEndpoint.applyOp, TextEndpoint.mark_unhealthy] at hfalse ⊢
      by_cases hc : e.consecutive_failures + 1 ≥ 3
      · omega
      · simp only [if_neg hc] at hfalse
        have := h hfalse
        omega

lemma TextEndpoint.run_invariant (ops : List EndpointOp) (e : TextEndpoint)
    (h : e.healthy = false → 3 ≤ e.consecutive_failures) :
    (e.run ops).healthy = false → 3 ≤ (e.run ops).consecutive_failures := by
  induction ops generalizing e with
  | nil => exact h
  | cons op rest ih =>
      exact ih (e.applyOp op) (TextEndpoint.applyOp_invariant e h op)

lemma TextEndpoint.run_append (e : TextEndpoint) (l₁ l₂ : List EndpointOp) :
    e.run (l₁ ++ l₂) = (e.run l₁).run l₂ := by
  simp [TextEndpoint.run, List.foldl_append]

lemma TextEndpoint.run_replicate_unhealthy_failures (k : Nat) (e : TextEndpoint) :
    (e.run (List.replicate k EndpointOp.markUnhealthy)).consecutive_failures =
      e.consecutive_failures + k := by
  induction k generalizing e with
  | zero => simp [TextEndpoint.run]
  | succ n ih =>
      rw [List.replicate_succ]
      show ((e.applyOp EndpointOp.markUnhealthy).run
        (List.replicate n EndpointOp.markUnhealthy)).consecutive_failures = _
      rw [ih]
      simp [TextEndpoint.applyOp, TextEndpoint.mark_unhealthy]
      omega

lemma TextEndpoint.run_replicate_unhealthy_false (k : Nat) (hk : 3 ≤ k)
    (e : TextEndpoint) :
    (e.run (List.replicate k EndpointOp.markUnhealthy)).healthy = false := by
  obtain ⟨j, rfl⟩ : ∃ j, k = j + 1 := ⟨k - 1, by omega⟩
  rw [List.replicate_succ', TextEndpoint.run_append]
  have hf := TextEndpoint.run_replicate_unhealthy_failures j e
  show ((e.run (List.replicate j EndpointOp.markUnhealthy)).applyOp
      EndpointOp.markUnhealthy).healthy = false
  simp only [TextEndpoint.applyOp, TextEndpoint.mark_unhealthy]
  rw [if_pos (by omega)]

/-- Claim C2: from a freshly created endpoint (healthy, zero failures), under
any sequence of mark_healthy / mark_unhealthy operations: a trailing
mark_healthy yields healthy = true with the counter reset; a trailing run of
k ≥ 3 consecutive mark_unhealthy operations yields healthy = false; and in
every reachable state, healthy = false implies at least 3 consecutive
failures. -/
theorem C2_endpoint_health_invariant (u : String) (ops : List EndpointOp) (k : Nat) :
    (((TextEndpoint.new u).run (ops ++ [EndpointOp.markHealthy])).healthy = true ∧
      ((TextEndpoint.new u).run (ops ++ [EndpointOp.markHealthy])).consecutive_failures = 0) ∧
    (3 ≤ k →
      ((TextEndpoint.new u).run
        (ops ++ List.replicate k EndpointOp.markUnhealthy)).healthy = false) ∧
    (((TextEndpoint.new u).run ops).healthy = false →
      3 ≤ ((TextEndpoint.new u).run ops).consecutive_failures) := by
  refine ⟨?_, ?_, ?_⟩
  · rw [TextEndpoint.run_append]
    constructor <;>
      simp [TextEndpoint.run, TextEndpoint.applyOp, TextEndpoint.mark_healthy]
  · intro hk
    rw [TextEndpoint.run_append]
    exact TextEndpoint.run_replicate_unhealthy_false k hk _
  · exact TextEndpoint.run_invariant ops (TextEndpoint.new u)
      (by intro h; simp [TextEndpoint.new] at h)

/-- Witness for C2: concrete runs exercising each conjunct, with the
hypotheses discharged at k = 3 and at a state that is actually unhealthy. -/
theorem C2_endpoint_health_invariant_witness :
    (((TextEndpoint.new "http://a").run
        ([EndpointOp.markUnhealthy] ++ [EndpointOp.markHealthy])).healthy = true ∧
      ((TextEndpoint.new "http://a").run
        ([EndpointOp.markUnhealthy] ++ [EndpointOp.markHealthy])).consecutive_failures = 0) ∧
    ((TextEndpoint.new "http://a").run
        ([EndpointOp.markUnhealthy] ++ List.replicate 3 EndpointOp.markUnhealthy)).healthy
      = false ∧
    3 ≤ ((TextEndpoint.new "http://a").run
        (List.replicate 3 EndpointOp.markUnhealthy)).consecutive_failures := by
  refine ⟨(C2_endpoint_health_invariant "http://a" [EndpointOp.markUnhealthy] 3).1, ?_, ?_⟩
  · exact (C2_endpoint_health_invariant "http://a" [EndpointOp.markUnhealthy] 3).2.1
      (by decide)
  · exact (C2_endpoint_health_invariant "http://a"
      (List.replicate 3 EndpointOp.markUnhealthy) 3).2.2 (by decide)

/-- Association-list lookup (first entry with the given key). Models a
DashMap `get` over the map's entries in iteration order. -/
def assocFind {α : Type} (l : List (String × α)) (k : String) : Option α :=
  match l with
  | [] => none
  | (k2, v) :: rest => if k2 = k then some v else assocFind rest k

/-- Association-list insert: replaces the value of an existing key in place,
appends a fresh key at the end. Models a DashMap `insert`. -/
def assocInsert {α : Type} (l : List (String × α)) (k : String) (v : α) :
    List (String × α) :=
  match l with
  | [] => [(k, v)]
  | (k2, v2) :: rest =>
      if k2 = k then (k, v) :: rest else (k2, v2) :: assocInsert rest k v

/-- Association-list erase of a key. Models a DashMap `remove`. -/
def assocErase {α : Type} (l : List (String × α)) (k : String) :
    List (String × α) :=
  l.filter (fun p => p.1 ≠ k)

/-- What the registries observe of an `Arc<dyn TextBackend>`: the pure
accessors name(), protocol(), models(), capabilities(), is_enabled() of the
trait in src/backend/text_backend.rs. -/
structure TextAdapter where
  name : String
  protocol : String
  models : List String
  capabilities : List String
  enabled : Bool
deriving DecidableEq, Repr

/-- The protocol tag strings of OpenAICompatibleBackend::protocol
(src/backend/text_backend.rs lines 332-340). -/
def protocolTag : ProtocolType → String
  | ProtocolType.OpenAI => "openai"
  | ProtocolType.Anthropic => "anthropic"
  | ProtocolType.Tgi => "tgi"
  | ProtocolType.Http => "http"
  | ProtocolType.Grpc => "grpc"

/-- create_text_backend (src/backend/text_backend.rs lines 619-631):
Anthropic configs get an AnthropicBackend (protocol tag "anthropic"),
OpenAI / Http / Tgi configs get an OpenAICompatibleBackend, gRPC is
rejected. Only the trait-level observations of the constructed adapter are
kept here. -/
def create_text_backend (c : BackendConfig) : Except AppError TextAdapter :=
  match c.protocol with
  | ProtocolType.Grpc =>
      Except.error (AppError.Internal "gRPC text backends not yet supported")
  | ProtocolType.Anthropic =>
      Except.ok { name := c.name, protocol := "anthropic", models := c.models,
                  capabilities := c.capabilities, enabled := c.enabled }
  | p =>
      Except.ok { name := c.name, protocol := protocolTag p, models := c.models,
                  capabilities := c.capabilities, enabled := c.enabled }

/-- TextBackendRegistry state (src/backend/text_registry.rs lines 12-15):
a map from backend name to adapter and a map from model id to backend
name, both modelled as association lists in iteration order. -/
structure TextBackendRegistry where
  backends : List (String × TextAdapter)
  model_to_backend : List (String × String)
deriving DecidableEq, Repr

/-- TextBackendRegistry::new (src/backend/text_registry.rs lines 19-24). -/
def TextBackendRegistry.new : TextBackendRegistry :=
  { backends := [], model_to_backend := [] }

/-- TextBackendRegistry::add_backend (src/backend/text_registry.rs lines
27-47): reject non-text configs, construct the adapter, register every
declared model in the model → name mapping, then insert the adapter.
There is no duplicate-name check. -/
def TextBackendRegistry.add_backend (r : TextBackendRegistry)
    (c : BackendConfig) : TextBackendRegistry × Except AppError Unit :=
  if c.backend_type ≠ BackendType.Text then
    (r, Except.error (AppError.Internal
      ("Backend \x27" ++ c.name ++ "\x27 is not a text backend")))
  else
    match create_text_backend c with
    | Except.error e => (r, Except.error e)
    | Except.ok b =>
        ({ backends := assocInsert r.backends c.name b,
           model_to_backend :=
             c.models.foldl (fun acc m => assocInsert acc m c.name)
               r.model_to_backend },
         Except.ok ())

/-- TextBackendRegistry::remove_backend (src/backend/text_registry.rs lines
50-60): error if absent, otherwise drop the adapter and purge every
model-mapping entry whose value is the removed name. -/
def TextBackendRegistry.remove_backend (r : TextBackendRegistry)
    (name : String) : TextBackendRegistry × Except AppError Unit :=
  if (assocFind r.backends name).isSome then
    ({ backends := assocErase r.backends name,
       model_to_backend := r.model_to_backend.filter (fun p => p.2 ≠ name) },
     Except.ok ())
  else
    (r, Except.error (AppError.BackendNotFound name))

/-- TextBackendRegistry::get_backend (src/backend/text_registry.rs lines
63-65). -/
def TextBackendRegistry.get_backend (r : TextBackendRegistry)
    (name : String) : Option TextAdapter :=
  assocFind r.backends name

/-- Step 2 of get_backend_for_model (src/backend/text_registry.rs lines
81-89): the adapter bound to the model in the model → name mapping, provided
it exists and is enabled. -/
def TextBackendRegistry.mappedEnabled (r : TextBackendRegistry)
    (model : String) : Option TextAdapter :=
  match assocFind r.model_to_backend model with
  | none => none
  | some bn =>
      match assocFind r.backends bn with
      | none => none
      | some b => if b.enabled then some b else none

/-- Step 3 of get_backend_for_model (src/backend/text_registry.rs lines
91-97): scan the registry for the first enabled adapter whose models()
contains the model. -/
def TextBackendRegistry.firstEnabledWithModel (model : String) :
    List (String × TextAdapter) → Option TextAdapter
  | [] => none
  | e :: rest =>
      if e.2.enabled && e.2.models.contains model then some e.2
      else TextBackendRegistry.firstEnabledWithModel model rest

/-- Step 4 of get_backend_for_model (src/backend/text_registry.rs lines
99-105): scan the registry for the first enabled adapter. -/
def TextBackendRegistry.firstEnabled :
    List (String × TextAdapter) → Option TextAdapter
  | [] => none
  | e :: rest =>
      if e.2.enabled then some e.2
      else TextBackendRegistry.firstEnabled rest

/-- TextBackendRegistry::get_backend_for_model (src/backend/text_registry.rs
lines 68-111), with the early returns of the source rendered as nested
matches. -/
def TextBackendRegistry.get_backend_for_model (r : TextBackendRegistry)
    (model : String) (preferred : Option String) :
    Except AppError TextAdapter :=
  let fallback : Except AppError TextAdapter :=
    match r.mappedEnabled model with
    | some b => Except.ok b
    | none =>
        match TextBackendRegistry.firstEnabledWithModel model r.backends with
        | some b => Except.ok b
        | none =>
            match TextBackendRegistry.firstEnabled r.backends with
            | some b => Except.ok b
            | none =>
                Except.error (AppError.NoHealthyBackends
                  ("No available backend for model \x27" ++ model ++ "\x27"))
  match preferred with
  | some bn =>
      match assocFind r.backends bn with
      | some b => Except.ok b
      | none => fallback
  | none => fallback

/-- Claim C1: get_backend_for_model follows exactly the five-step precedence:
(1) a registered preferred backend is returned regardless of enabled or
health; otherwise (2) the enabled adapter bound in the model mapping;
otherwise (3) the first enabled adapter in iteration order whose models()
contains the model; otherwise (4) the first enabled adapter; otherwise
(5) NoHealthyBackends with the quoted message. -/
theorem C1_get_backend_for_model_precedence (r : TextBackendRegistry)
    (m : String) (p : Option String) :
    (∀ n b, p = some n → assocFind r.backends n = some b →
      r.get_backend_for_model m p = Except.ok b) ∧
    ((∀ n, p = some n → assocFind r.backends n = none) →
      ((∀ b, r.mappedEnabled m = some b →
          r.get_backend_for_model m p = Except.ok b) ∧
       (r.mappedEnabled m = none →
        ((∀ b, TextBackendRegistry.firstEnabledWithModel m r.backends = some b →
            r.get_backend_for_model m p = Except.ok b) ∧
         (TextBackendRegistry.firstEnabledWithModel m r.backends = none →
          ((∀ b, TextBackendRegistry.firstEnabled r.backends = some b →
              r.get_backend_for_model m p = Except.ok b) ∧
           (TextBackendRegistry.firstEnabled r.backends = none →
            r.get_backend_for_model m p = Except.error
              (AppError.NoHealthyBackends
                ("No available backend for model \x27" ++ m ++ "\x27"))))))))) := by
  constructor
  · rintro n b rfl hfind
    simp [TextBackendRegistry.get_backend_for_model, hfind]
  · intro hmiss
    have hcase : r.get_backend_for_model m p =
        (match r.mappedEnabled m with
         | some b => Except.ok b
         | none =>
             match TextBackendRegistry.firstEnabledWithModel m r.backends with
             | some b => Except.ok b
             | none =>
                 match TextBackendRegistry.firstEnabled r.backends with
                 | some b => Except.ok b
                 | none =>
                     Except.error (AppError.NoHealthyBackends
                       ("No available backend for model \x27" ++ m ++ "\x27"))) := by
      cases p with
      | none => rfl
      | some n =>
          have := hmiss n rfl
          simp [TextBackendRegistry.get_backend_for_model, this]
    refine ⟨?_, ?_⟩
    · intro b hb; rw [hcase, hb]
    · intro hnone
      refine ⟨?_, ?_⟩
      · intro b hb; rw [hcase, hnone, hb]
      · intro hnone2
        refine ⟨?_, ?_⟩
        · intro b hb; rw [hcase, hnone, hnone2, hb]
        · intro hnone3; rw [hcase, hnone, hnone2, hnone3]

/-- A disabled text adapter serving model "m", used in concrete scenarios. -/
def demoDisabled : TextAdapter :=
  { name := "a", protocol := "openai", models := ["m"], capabilities := [],
    enabled := false }

/-- An enabled text adapter serving model "m", used in concrete scenarios. -/
def demoEnabled : TextAdapter :=
  { name := "b", protocol := "openai", models := ["m"], capabilities := [],
    enabled := true }

/-- An enabled text adapter serving no models, used in concrete scenarios. -/
def demoEnabledBare : TextAdapter :=
  { name := "c", protocol := "openai", models := [], capabilities := [],
    enabled := true }

/-- Registry with a model mapping for "m", used in concrete scenarios. -/
def demoRegMapped : TextBackendRegistry :=
  { backends := [("a", demoDisabled), ("b", demoEnabled)],
    model_to_backend := [("m", "b")] }

/-- Registry without model mappings, used in concrete scenarios. -/
def demoRegUnmapped : TextBackendRegistry :=
  { backends := [("a", demoDisabled), ("b", demoEnabled)],
    model_to_backend := [] }

/-- Registry whose only enabled adapter serves no models. -/
def demoRegBare : TextBackendRegistry :=
  { backends := [("a", demoDisabled), ("c", demoEnabledBare)],
    model_to_backend := [] }

/-- Registry with no enabled adapter at all. -/
def demoRegDisabled : TextBackendRegistry :=
  { backends := [("a", demoDisabled)], model_to_backend := [] }

/-- Witness for C1: one concrete scenario per precedence step — a disabled
preferred backend is still returned; the mapped enabled backend wins next;
then the first enabled adapter carrying the model; then any enabled
adapter; finally the NoHealthyBackends error. -/
theorem C1_get_backend_for_model_precedence_witness :
    demoRegMapped.get_backend_for_model "m" (some "a") = Except.ok demoDisabled ∧
    demoRegMapped.get_backend_for_model "m" none = Except.ok demoEnabled ∧
    demoRegUnmapped.get_backend_for_model "m" none = Except.ok demoEnabled ∧
    demoRegBare.get_backend_for_model "m" none = Except.ok demoEnabledBare ∧
    demoRegDisabled.get_backend_for_model "m" none = Except.error
      (AppError.NoHealthyBackends
        ("No available backend for model \x27" ++ "m" ++ "\x27")) := by
  refine ⟨?_, ?_, ?_, ?_, ?_⟩
  · exact (C1_get_backend_for_model_precedence demoRegMapped "m" (some "a")).1
      "a" demoDisabled rfl (by decide)
  · exact ((C1_get_backend_for_model_precedence demoRegMapped "m" none).2
      (fun n h => nomatch h)).1 demoEnabled (by decide)
  · exact (((C1_get_backend_for_model_precedence demoRegUnmapped "m" none).2
      (fun n h => nomatch h)).2 (by decide)).1 demoEnabled (by decide)
  · exact ((((C1_get_backend_for_model_precedence demoRegBare "m" none).2
      (fun n h => nomatch h)).2 (by decide)).2 (by decide)).1 demoEnabledBare
      (by decide)
  · exact ((((C1_get_backend_for_model_precedence demoRegDisabled "m" none).2
      (fun n h => nomatch h)).2 (by decide)).2 (by decide)).2 (by decide)

/-- BackendRegistry state for image backends (src/backend/registry.rs lines
14-16), generic in the adapter representation: the registry code never
inspects adapters beyond storing them. -/
structure BackendRegistry (α : Type) where
  backends : List (String × α)
deriving DecidableEq, Repr

/-- BackendRegistry::add_backend (src/backend/registry.rs lines 67-80):
reject duplicate names with InvalidRequest, otherwise construct the adapter
via create_backend (src/backend/registry.rs lines 49-64; its protocol
dispatch lives in files outside the provided sources, so construction is a
parameter here — the duplicate branch runs before it either way) and
insert. -/
def BackendRegistry.add_backend {α : Type}
    (create : BackendConfig → Except AppError α) (r : BackendRegistry α)
    (c : BackendConfig) : BackendRegistry α × Except AppError Unit :=
  if (assocFind r.backends c.name).isSome then
    (r, Except.error (AppError.InvalidRequest
      ("Backend \x27" ++ c.name ++ "\x27 already exists")))
  else
    match create c with
    | Except.error e => (r, Except.error e)
    | Except.ok b =>
        ({ backends := assocInsert r.backends c.name b }, Except.ok ())

/-- BackendRegistry::remove_backend (src/backend/registry.rs lines 83-90). -/
def BackendRegistry.remove_backend {α : Type} (r : BackendRegistry α)
    (name : String) : BackendRegistry α × Except AppError Unit :=
  if (assocFind r.backends name).isSome then
    ({ backends := assocErase r.backends name }, Except.ok ())
  else
    (r, Except.error (AppError.BackendNotFound name))

/-- BackendRegistry::get (src/backend/registry.rs lines 93-95). -/
def BackendRegistry.get {α : Type} (r : BackendRegistry α) (name : String) :
    Option α :=
  assocFind r.backends name

lemma assocFind_insert_self {α : Type} (l : List (String × α)) (k : String)
    (v : α) : assocFind (assocInsert l k v) k = some v := by
  induction l with
  | nil => simp [assocInsert, assocFind]
  | cons hd tl ih =>
      by_cases h : hd.1 = k
      · simp [assocInsert, assocFind, h]
      · simpa [assocInsert, assocFind, h] using ih

lemma assocFind_erase_self {α : Type} (l : List (String × α)) (k : String) :
    assocFind (assocErase l k) k = none := by
  induction l with
  | nil => rfl
  | cons hd tl ih =>
      by_cases h : hd.1 = k
      · simpa [assocErase, List.filter, h] using ih
      · simpa [assocErase, List.filter, assocFind, h] using ih

/-- Adapter constructor that always succeeds, for unit-adapter scenarios. -/
def demoUnitCreate : BackendConfig → Except AppError Unit :=
  fun _ => Except.ok ()

/-- A text-typed configuration named "b" serving model "m". -/
def demoTextCfg : BackendConfig :=
  { name := "b", backend_type := BackendType.Text,
    protocol := ProtocolType.OpenAI, endpoints := ["http://x"],
    models := ["m"] }

/-- Counterexample for C3: on the text registry, adding the same
configuration twice succeeds on the second call too — TextBackendRegistry::
add_backend has no duplicate-name check, contradicting the claim that every
registry rejects an already-registered name. -/
theorem C3_counterexample :
    (((TextBackendRegistry.new.add_backend demoTextCfg).1.add_backend
        demoTextCfg).2 = Except.ok ()) ∧
    assocFind (TextBackendRegistry.new.add_backend demoTextCfg).1.backends
      demoTextCfg.name ≠ none := by
  constructor
  · rfl
  · decide

/-- Claim C3 as amended: the image registry rejects an already-registered
name with the InvalidRequest "already exists" error, leaving its state
untouched and never invoking adapter construction, while the text registry
performs no duplicate check — add_backend on a text-typed, non-gRPC
configuration always succeeds, overwriting any adapter already registered
under that name. -/
theorem C3_duplicate_add (α : Type) (create : BackendConfig → Except AppError α)
    (r : BackendRegistry α) (c : BackendConfig)
    (h : (assocFind r.backends c.name).isSome = true)
    (t : TextBackendRegistry) (c2 : BackendConfig)
    (h2 : c2.backend_type = BackendType.Text)
    (h3 : c2.protocol ≠ ProtocolType.Grpc) :
    BackendRegistry.add_backend create r c =
      (r, Except.error (AppError.InvalidRequest
        ("Backend \x27" ++ c.name ++ "\x27 already exists"))) ∧
    (t.add_backend c2).2 = Except.ok () ∧
    (∀ b, create_text_backend c2 = Except.ok b →
      (t.add_backend c2).1.get_backend c2.name = some b) := by
  refine ⟨?_, ?_, ?_⟩
  · simp [BackendRegistry.add_backend, h]
  · obtain ⟨b, hb⟩ : ∃ b, create_text_backend c2 = Except.ok b := by
      cases hp : c2.protocol <;>
        simp [create_text_backend, hp] at h3 ⊢
    simp [TextBackendRegistry.add_backend, h2, hb]
  · intro b hb
    simp [TextBackendRegistry.add_backend, h2, hb,
      TextBackendRegistry.get_backend, assocFind_insert_self]

/-- Witness for C3 (amended): a unit-adapter image registry already holding
name "i" rejects a second config of that name unchanged, and the text
registry that already holds "b" accepts the very same configuration again,
overwriting the adapter. -/
theorem C3_duplicate_add_witness :
    BackendRegistry.add_backend demoUnitCreate
        { backends := [("i", ())] } { name := "i", endpoints := [] } =
      ({ backends := [("i", ())] }, Except.error (AppError.InvalidRequest
        ("Backend \x27" ++ "i" ++ "\x27 already exists"))) ∧
    (((TextBackendRegistry.new.add_backend demoTextCfg).1.add_backend
        demoTextCfg).2 = Except.ok ()) ∧
    ((TextBackendRegistry.new.add_backend demoTextCfg).1.add_backend
        demoTextCfg).1.get_backend demoTextCfg.name = some
      { name := "b", protocol := "openai", models := ["m"],
        capabilities := [], enabled := true } := by
  have h := C3_duplicate_add Unit demoUnitCreate
    { backends := [("i", ())] } { name := "i", endpoints := [] } (by decide)
    (TextBackendRegistry.new.add_backend demoTextCfg).1 demoTextCfg
    (by decide) (by decide)
  exact ⟨h.1, h.2.1, h.2.2 _ rfl⟩

/-- Claim C4: remove_backend on either registry fails with BackendNotFound
and leaves the registry unchanged when the name is absent; when the name is
present it succeeds, a subsequent get of the name is absent, and on the
text registry no model-mapping entry still points at the removed name. -/
theorem C4_remove_backend (α : Type) (r : BackendRegistry α)
    (t : TextBackendRegistry) (n : String) :
    (r.get n = none →
      r.remove_backend n = (r, Except.error (AppError.BackendNotFound n))) ∧
    ((r.get n).isSome = true →
      (r.remove_backend n).2 = Except.ok () ∧
      (r.remove_backend n).1.get n = none) ∧
    (t.get_backend n = none →
      t.remove_backend n = (t, Except.error (AppError.BackendNotFound n))) ∧
    ((t.get_backend n).isSome = true →
      (t.remove_backend n).2 = Except.ok () ∧
      (t.remove_backend n).1.get_backend n = none ∧
      ∀ p ∈ (t.remove_backend n).1.model_to_backend, p.2 ≠ n) := by
  refine ⟨?_, ?_, ?_, ?_⟩
  · intro h
    simp [BackendRegistry.remove_backend, BackendRegistry.get] at h ⊢
    simp [h]
  · intro h
    simp only [BackendRegistry.get] at h
    simp [BackendRegistry.remove_backend, h, BackendRegistry.get,
      assocFind_erase_self]
  · intro h
    simp [TextBackendRegistry.remove_backend, TextBackendRegistry.get_backend]
      at h ⊢
    simp [h]
  · intro h
    simp only [TextBackendRegistry.get_backend] at h
    refine ⟨?_, ?_, ?_⟩
    · simp [TextBackendRegistry.remove_backend, h]
    · simp [TextBackendRegistry.remove_backend, h,
        TextBackendRegistry.get_backend, assocFind_erase_self]
    · intro p hp
      simp only [TextBackendRegistry.remove_backend, h, if_pos] at hp
      have := List.of_mem_filter hp
      simpa using this

/-- Witness for C4: both registries with one entry each — removing a missing
name errors without change, removing the present name succeeds and empties
the lookup. -/
theorem C4_remove_backend_witness :
    (BackendRegistry.remove_backend { backends := [("i", ())] } "nope" =
      ({ backends := [("i", ())] },
        Except.error (AppError.BackendNotFound "nope"))) ∧
    ((BackendRegistry.remove_backend { backends := [("i", ())] } "i").2 =
        Except.ok () ∧
      (BackendRegistry.remove_backend
        (α := Unit) { backends := [("i", ())] } "i").1.get "i" = none) ∧
    (demoRegMapped.remove_backend "b").2 = Except.ok () ∧
    (demoRegMapped.remove_backend "b").1.get_backend "b" = none := by
  have h1 := C4_remove_backend Unit { backends := [("i", ())] }
    demoRegMapped "nope"
  have h2 := C4_remove_backend Unit { backends := [("i", ())] }
    demoRegMapped "i"
  have h3 := C4_remove_backend Unit { backends := [("i", ())] }
    demoRegMapped "b"
  have hpresent := h3.2.2.2 (by decide)
  exact ⟨h1.1 (by decide), h2.2.1 (by decide), hpresent.1, hpresent.2.1⟩

/-- Token usage (src/backend/text_backend.rs lines 107-112). -/
structure Usage where
  prompt_tokens : Nat
  completion_tokens : Nat
  total_tokens : Nat
deriving DecidableEq, Repr

/-- Chat message (src/backend/text_backend.rs lines 16-22). -/
structure ChatMessage where
  role : String
  content : String
  name : Option String
deriving DecidableEq, Repr

/-- Chat choice (src/backend/text_backend.rs lines 77-83). -/
structure ChatChoice where
  index : Nat
  message : ChatMessage
  finish_reason : Option String
deriving DecidableEq, Repr

/-- Chat completion response (src/backend/text_backend.rs lines 65-74). -/
structure ChatCompletionResponse where
  id : String
  object : String
  created : Int
  model : String
  choices : List ChatChoice
  usage : Option Usage
deriving DecidableEq, Repr

/-- Text choice (src/backend/text_backend.rs lines 97-104). -/
structure TextChoice where
  index : Nat
  text : String
  finish_reason : Option String
deriving DecidableEq, Repr

/-- Text completion response (src/backend/text_backend.rs lines 85-95). -/
structure TextCompletionResponse where
  id : String
  object : String
  created : Int
  model : String
  choices : List TextChoice
  usage : Option Usage
deriving DecidableEq, Repr

/-- Model information (src/backend/text_backend.rs lines 114-123). -/
structure ModelInfo where
  id : String
  object : String
  created : Option Int
  owned_by : Option String
deriving DecidableEq, Repr

/-- Models list response (src/backend/text_backend.rs lines 125-130). -/
structure ModelsResponse where
  object : String
  data : List ModelInfo
deriving DecidableEq, Repr

/-- Text backend status projection (src/backend/text_backend.rs lines
166-176). -/
structure TextBackendStatus where
  name : String
  protocol : String
  endpoints : List String
  healthy : Bool
  models : List String
  capabilities : List String
  enabled : Bool
deriving DecidableEq, Repr

/-- Mutable and immutable state of an OpenAICompatibleBackend
(src/backend/text_backend.rs lines 213-225). The reqwest client and the
authentication token/header are not modelled: they only shape the outgoing
HTTP request, which enters the embedding through the upstream oracle
below. -/
structure OpenAIBackendState where
  name : String
  protocol : ProtocolType
  endpoints : List TextEndpoint
  health_check_path : String
  models : List String
  capabilities : List String
  enabled : Bool
  current_endpoint_index : Nat
deriving DecidableEq, Repr

/-- OpenAICompatibleBackend::new (src/backend/text_backend.rs lines
229-263): every configured endpoint URL becomes a fresh TextEndpoint and
the round-robin cursor starts at 0. -/
def OpenAIBackendState.new (c : BackendConfig) : OpenAIBackendState :=
  { name := c.name, protocol := c.protocol,
    endpoints := c.endpoints.map TextEndpoint.new,
    health_check_path := c.health_check.path, models := c.models,
    capabilities := c.capabilities, enabled := c.enabled,
    current_endpoint_index := 0 }

/-- OpenAICompatibleBackend::get_next_endpoint (src/backend/text_backend.rs
lines 293-307): advance the cursor modulo the number of currently-healthy
endpoints and return that endpoint's URL, or none when no endpoint is
healthy (the cursor is then left untouched). Returns the chosen URL
together with the updated cursor. -/
def OpenAIBackendState.get_next_endpoint (st : OpenAIBackendState) :
    Option String × Nat :=
  let healthy := st.endpoints.filter (fun e => e.healthy)
  if h : healthy.length = 0 then
    (none, st.current_endpoint_index)
  else
    let idx := (st.current_endpoint_index + 1) % healthy.length
    (some (healthy.get ⟨idx, Nat.mod_lt _ (Nat.pos_of_ne_zero h)⟩).url, idx)

/-- Update the first endpoint whose URL matches, as in
mark_endpoint_healthy / mark_endpoint_unhealthy (src/backend/text_backend.rs
lines 309-324, `iter_mut().find(...)`). -/
def markFirst (f : TextEndpoint → TextEndpoint) (url : String) :
    List TextEndpoint → List TextEndpoint
  | [] => []
  | e :: rest => if e.url = url then f e :: rest else e :: markFirst f url rest

/-- Outcome of one upstream HTTP exchange, as the adapter observes it: a
transport failure, or a response with its status code, the result of
deserializing the body as the expected type, and the raw body text. -/
inductive UpstreamOutcome (α : Type) where
  | transportError
  | response (status : Nat) (parsed : Option α) (body : String)
deriving DecidableEq, Repr

/-- reqwest StatusCode::is_success: the 200-299 range. -/
def statusIsSuccess (s : Nat) : Bool :=
  decide (200 ≤ s) && decide (s < 300)

/-- Shared body of OpenAICompatibleBackend::chat_completion
(src/backend/text_backend.rs lines 350-392) and ::text_completion (lines
394-436), which are identical up to URL path and response type: pick the
next healthy endpoint (NoHealthyBackends if none), send the request, then
on a transport error mark that endpoint unhealthy and fail with HttpClient;
on a 2xx response that parses, mark it healthy and return the value; on a
2xx response that does not parse, fail with BackendError leaving health
untouched; on a non-2xx response, mark the endpoint unhealthy only when the
status is at least 500 and fail with BackendError carrying status and
body. -/
def completionCall {α : Type} (st : OpenAIBackendState)
    (upstream : String → UpstreamOutcome α) :
    OpenAIBackendState × Except AppError α :=
  match st.get_next_endpoint with
  | (none, _) => (st, Except.error (AppError.NoHealthyBackends st.name))
  | (some url, idx) =>
      let st1 := { st with current_endpoint_index := idx }
      match upstream url with
      | UpstreamOutcome.transportError =>
          ({ st1 with
              endpoints := markFirst TextEndpoint.mark_unhealthy url st1.endpoints },
           Except.error AppError.HttpClient)
      | UpstreamOutcome.response status parsed body =>
          if statusIsSuccess status then
            match parsed with
            | some v =>
                ({ st1 with
                    endpoints := markFirst TextEndpoint.mark_healthy url st1.endpoints },
                 Except.ok v)
            | none =>
                (st1, Except.error (AppError.BackendError
                  "Failed to parse response"))
          else if 500 ≤ status then
            ({ st1 with
                endpoints := markFirst TextEndpoint.mark_unhealthy url st1.endpoints },
             Except.error (AppError.BackendError
               ("Backend returned " ++ toString status ++ ": " ++ body)))
          else
            (st1, Except.error (AppError.BackendError
              ("Backend returned " ++ toString status ++ ": " ++ body)))

/-- OpenAICompatibleBackend::chat_completion (src/backend/text_backend.rs
lines 350-392). -/
def chat_completion (st : OpenAIBackendState)
    (upstream : String → UpstreamOutcome ChatCompletionResponse) :
    OpenAIBackendState × Except AppError ChatCompletionResponse :=
  completionCall st upstream

/-- OpenAICompatibleBackend::text_completion (src/backend/text_backend.rs
lines 394-436). -/
def text_completion (st : OpenAIBackendState)
    (upstream : String → UpstreamOutcome TextCompletionResponse) :
    OpenAIBackendState × Except AppError TextCompletionResponse :=
  completionCall st upstream

/-- OpenAICompatibleBackend::list_models (src/backend/text_backend.rs lines
438-477): on a 2xx response that parses, mark the endpoint healthy and
return the parsed list; on a 2xx response that does not parse, propagate a
BackendError (despite the in-source comment announcing a fallback to the
configured models); on any non-2xx response, synthesize a list from the
configured models. -/
def list_models (st : OpenAIBackendState)
    (upstream : String → UpstreamOutcome ModelsResponse) :
    OpenAIBackendState × Except AppError ModelsResponse :=
  match st.get_next_endpoint with
  | (none, _) => (st, Except.error (AppError.NoHealthyBackends st.name))
  | (some url, idx) =>
      let st1 := { st with current_endpoint_index := idx }
      match upstream url with
      | UpstreamOutcome.transportError =>
          ({ st1 with
              endpoints := markFirst TextEndpoint.mark_unhealthy url st1.endpoints },
           Except.error AppError.HttpClient)
      | UpstreamOutcome.response status parsed _ =>
          if statusIsSuccess status then
            match parsed with
            | some v =>
                ({ st1 with
                    endpoints := markFirst TextEndpoint.mark_healthy url st1.endpoints },
                 Except.ok v)
            | none =>
                (st1, Except.error (AppError.BackendError
                  "Failed to parse response"))
          else
            (st1, Except.ok
              { object := "list",
                data := st1.models.map (fun id =>
                  { id := id, object := "model", created := none,
                    owned_by := some st1.name }) })

/-- OpenAICompatibleBackend::status (src/backend/text_backend.rs lines
532-545): the aggregate healthy flag is true iff any endpoint is healthy. -/
def OpenAIBackendState.status (st : OpenAIBackendState) : TextBackendStatus :=
  { name := st.name, protocol := protocolTag st.protocol,
    endpoints := st.endpoints.map (fun e => e.url),
    healthy := st.endpoints.any (fun e => e.healthy),
    models := st.models, capabilities := st.capabilities,
    enabled := st.enabled }

/-- AnthropicBackend::new (src/backend/text_backend.rs lines 553-559): a
plain wrapper around OpenAICompatibleBackend::new. -/
def AnthropicBackend.new (c : BackendConfig) : OpenAIBackendState :=
  OpenAIBackendState.new c

/-- AnthropicBackend::status (src/backend/text_backend.rs lines 611-615):
the inner status with the protocol tag overridden. -/
def anthropicStatus (st : OpenAIBackendState) : TextBackendStatus :=
  { st.status with protocol := "anthropic" }

lemma completionCall_health {α : Type} (st : OpenAIBackendState)
    (upstream : String → UpstreamOutcome α) (url : String) (idx : Nat)
    (h : st.get_next_endpoint = (some url, idx)) :
    (upstream url = UpstreamOutcome.transportError →
      (completionCall st upstream).1.endpoints =
        markFirst TextEndpoint.mark_unhealthy url st.endpoints ∧
      (completionCall st upstream).2 = Except.error AppError.HttpClient) ∧
    (∀ s v b, upstream url = UpstreamOutcome.response s (some v) b →
      statusIsSuccess s = true →
      (completionCall st upstream).1.endpoints =
        markFirst TextEndpoint.mark_healthy url st.endpoints ∧
      (completionCall st upstream).2 = Except.ok v) ∧
    (∀ s pr b, upstream url = UpstreamOutcome.response s pr b →
      statusIsSuccess s = false → 500 ≤ s →
      (completionCall st upstream).1.endpoints =
        markFirst TextEndpoint.mark_unhealthy url st.endpoints ∧
      (completionCall st upstream).2 = Except.error (AppError.BackendError
        ("Backend returned " ++ toString s ++ ": " ++ b))) ∧
    (∀ s pr b, upstream url = UpstreamOutcome.response s pr b →
      statusIsSuccess s = false → s < 500 →
      (completionCall st upstream).1.endpoints = st.endpoints ∧
      (completionCall st upstream).2 = Except.error (AppError.BackendError
        ("Backend returned " ++ toString s ++ ": " ++ b))) := by
  refine ⟨?_, ?_, ?_, ?_⟩
  · intro hup
    simp [completionCall, h, hup]
  · intro s v b hup hs
    simp [completionCall, h, hup, hs]
  · intro s pr b hup hs h5
    simp [completionCall, h, hup, hs, h5]
  · intro s pr b hup hs h5
    have : ¬ (500 ≤ s) := by omega
    simp [completionCall, h, hup, hs, this]

/-- Claim C5: for chat_completion and text_completion calls that reach an
endpoint, exactly that endpoint's health changes: transport errors mark it
unhealthy and surface HttpClient; parseable 2xx responses mark it healthy
and return the parsed value; responses with status at least 500 mark it
unhealthy and fail with BackendError carrying status and body; any other
non-2xx response leaves health untouched and fails with BackendError. -/
theorem C5_completion_health_updates (st : OpenAIBackendState)
    (upc : String → UpstreamOutcome ChatCompletionResponse)
    (upt : String → UpstreamOutcome TextCompletionResponse)
    (url : String) (idx : Nat)
    (h : st.get_next_endpoint = (some url, idx)) :
    ((upc url = UpstreamOutcome.transportError →
      (chat_completion st upc).1.endpoints =
        markFirst TextEndpoint.mark_unhealthy url st.endpoints ∧
      (chat_completion st upc).2 = Except.error AppError.HttpClient) ∧
    (∀ s v b, upc url = UpstreamOutcome.response s (some v) b →
      statusIsSuccess s = true →
      (chat_completion st upc).1.endpoints =
        markFirst TextEndpoint.mark_healthy url st.endpoints ∧
      (chat_completion st upc).2 = Except.ok v) ∧
    (∀ s pr b, upc url = UpstreamOutcome.response s pr b →
      statusIsSuccess s = false → 500 ≤ s →
      (chat_completion st upc).1.endpoints =
        markFirst TextEndpoint.mark_unhealthy url st.endpoints ∧
      (chat_completion st upc).2 = Except.error (AppError.BackendError
        ("Backend returned " ++ toString s ++ ": " ++ b))) ∧
    (∀ s pr b, upc url = UpstreamOutcome.response s pr b →
      statusIsSuccess s = false → s < 500 →
      (chat_completion st upc).1.endpoints = st.endpoints ∧
      (chat_completion st upc).2 = Except.error (AppError.BackendError
        ("Backend returned " ++ toString s ++ ": " ++ b)))) ∧
    ((upt url = UpstreamOutcome.transportError →
      (text_completion st upt).1.endpoints =
        markFirst TextEndpoint.mark_unhealthy url st.endpoints ∧
      (text_completion st upt).2 = Except.error AppError.HttpClient) ∧
    (∀ s v b, upt url = UpstreamOutcome.response s (some v) b →
      statusIsSuccess s = true →
      (text_completion st upt).1.endpoints =
        markFirst TextEndpoint.mark_healthy url st.endpoints ∧
      (text_completion st upt).2 = Except.ok v) ∧
    (∀ s pr b, upt url = UpstreamOutcome.response s pr b →
      statusIsSuccess s = false → 500 ≤ s →
      (text_completion st upt).1.endpoints =
        markFirst TextEndpoint.mark_unhealthy url st.endpoints ∧
      (text_completion st upt).2 = Except.error (AppError.BackendError
        ("Backend returned " ++ toString s ++ ": " ++ b))) ∧
    (∀ s pr b, upt url = UpstreamOutcome.response s pr b →
      statusIsSuccess s = false → s < 500 →
      (text_completion st upt).1.endpoints = st.endpoints ∧
      (text_completion st upt).2 = Except.error (AppError.BackendError
        ("Backend returned " ++ toString s ++ ": " ++ b)))) :=
  ⟨completionCall_health st upc url idx h, completionCall_health st upt url idx h⟩

/-- Adapter state freshly built from demoTextCfg (single endpoint
"http://x"). -/
def demoUpstreamState : OpenAIBackendState :=
  OpenAIBackendState.new demoTextCfg

/-- A concrete parsed chat completion. -/
def demoChatResp : ChatCompletionResponse :=
  { id := "r", object := "chat.completion", created := 0, model := "m",
    choices := [], usage := none }

/-- Oracle: the upstream connection fails. -/
def demoUpChatTransportFail : String → UpstreamOutcome ChatCompletionResponse :=
  fun _ => UpstreamOutcome.transportError

/-- Oracle: the upstream answers 200 with a parseable chat completion. -/
def demoUpChatOk : String → UpstreamOutcome ChatCompletionResponse :=
  fun _ => UpstreamOutcome.response 200 (some demoChatResp) ""

/-- Oracle: the upstream answers 503 with an unparseable body. -/
def demoUpText503 : String → UpstreamOutcome TextCompletionResponse :=
  fun _ => UpstreamOutcome.response 503 none "oops"

/-- Oracle: the upstream answers 404 with an unparseable body. -/
def demoUpText404 : String → UpstreamOutcome TextCompletionResponse :=
  fun _ => UpstreamOutcome.response 404 none "missing"

/-- Witness for C5: on a one-endpoint adapter, the four health outcomes at
concrete upstream replies — transport failure marks unhealthy with
HttpClient, a parsed 200 marks healthy, a 503 marks unhealthy with
BackendError, a 404 leaves the endpoint list untouched. -/
theorem C5_completion_health_updates_witness :
    ((chat_completion demoUpstreamState demoUpChatTransportFail).1.endpoints =
        markFirst TextEndpoint.mark_unhealthy "http://x"
          demoUpstreamState.endpoints ∧
      (chat_completion demoUpstreamState demoUpChatTransportFail).2 =
        Except.error AppError.HttpClient) ∧
    ((chat_completion demoUpstreamState demoUpChatOk).1.endpoints =
        markFirst TextEndpoint.mark_healthy "http://x"
          demoUpstreamState.endpoints ∧
      (chat_completion demoUpstreamState demoUpChatOk).2 =
        Except.ok demoChatResp) ∧
    ((text_completion demoUpstreamState demoUpText503).1.endpoints =
        markFirst TextEndpoint.mark_unhealthy "http://x"
          demoUpstreamState.endpoints ∧
      (text_completion demoUpstreamState demoUpText503).2 =
        Except.error (AppError.BackendError
          ("Backend returned " ++ toString 503 ++ ": " ++ "oops"))) ∧
    ((text_completion demoUpstreamState demoUpText404).1.endpoints =
        demoUpstreamState.endpoints ∧
      (text_completion demoUpstreamState demoUpText404).2 =
        Except.error (AppError.BackendError
          ("Backend returned " ++ toString 404 ++ ": " ++ "missing"))) := by
  refine ⟨?_, ?_, ?_, ?_⟩
  · exact (C5_completion_health_updates demoUpstreamState
      demoUpChatTransportFail demoUpText404 "http://x" 0 (by decide)).1.1 rfl
  · exact (C5_completion_health_updates demoUpstreamState
      demoUpChatOk demoUpText404 "http://x" 0 (by decide)).1.2.1
      200 demoChatResp "" rfl (by decide)
  · exact (C5_completion_health_updates demoUpstreamState
      demoUpChatOk demoUpText503 "http://x" 0 (by decide)).2.2.2.1
      503 none "oops" rfl (by decide) (by decide)
  · exact (C5_completion_health_updates demoUpstreamState
      demoUpChatOk demoUpText404 "http://x" 0 (by decide)).2.2.2.2
      404 none "missing" rfl (by decide) (by decide)

/-- Oracle: the /models endpoint answers 200 but the body is not a models
list. -/
def demoUpModelsBadBody : String → UpstreamOutcome ModelsResponse :=
  fun _ => UpstreamOutcome.response 200 none "not json"

/-- Oracle: the /models endpoint answers 404. -/
def demoUpModels404 : String → UpstreamOutcome ModelsResponse :=
  fun _ => UpstreamOutcome.response 404 none ""

/-- A concrete parsed upstream models list. -/
def demoModelsResp : ModelsResponse :=
  { object := "list",
    data := [{ id := "upstream-model", object := "model", created := some 1,
               owned_by := some "up" }] }

/-- Oracle: the /models endpoint answers 200 with a parseable models list. -/
def demoUpModelsOk : String → UpstreamOutcome ModelsResponse :=
  fun _ => UpstreamOutcome.response 200 (some demoModelsResp) ""

/-- The models list list_models synthesizes from demoTextCfg's configured
models when the upstream answer is non-2xx. -/
def demoSynthesizedModels : ModelsResponse :=
  { object := "list",
    data := [{ id := "m", object := "model", created := none,
               owned_by := some "b" }] }

/-- Claim C6, evaluated at the failing input: a 2xx /models response whose
body does not parse makes list_models fail with BackendError instead of
synthesizing a response from the configured models — although a non-2xx
response does synthesize one, and a parsed 2xx response is returned. The
error branch contradicts the in-source comment and warning message
("using configured models", src/backend/text_backend.rs lines 458-460),
so the claim matches the documented intent and the code diverges. -/
theorem C6_list_models_parse_failure_divergence :
    (list_models demoUpstreamState demoUpModelsBadBody).2 =
      Except.error (AppError.BackendError "Failed to parse response") ∧
    (list_models demoUpstreamState demoUpModels404).2 =
      Except.ok demoSynthesizedModels ∧
    (list_models demoUpstreamState demoUpModelsOk).2 =
      Except.ok demoModelsResp := by
  exact ⟨rfl, rfl, rfl⟩

/-- Claim C10: an OpenAI-compatible or Anthropic adapter built from a
configuration with a non-empty endpoint list starts with every endpoint
healthy and zero consecutive failures, so its status reports healthy before
any request or probe has run. -/
theorem C10_fresh_adapter_optimistic (c : BackendConfig)
    (h : c.endpoints ≠ []) :
    (∀ e ∈ (OpenAIBackendState.new c).endpoints,
      e.healthy = true ∧ e.consecutive_failures = 0) ∧
    (OpenAIBackendState.new c).status.healthy = true ∧
    (anthropicStatus (AnthropicBackend.new c)).healthy = true := by
  have hmem : ∀ e ∈ (OpenAIBackendState.new c).endpoints,
      e.healthy = true ∧ e.consecutive_failures = 0 := by
    intro e he
    simp only [OpenAIBackendState.new, List.mem_map] at he
    obtain ⟨u, _, rfl⟩ := he
    exact ⟨rfl, rfl⟩
  have hany : (OpenAIBackendState.new c).status.healthy = true := by
    cases hc : c.endpoints with
    | nil => exact absurd hc h
    | cons hd tl =>
        simp [OpenAIBackendState.new, OpenAIBackendState.status, hc,
          TextEndpoint.new]
  exact ⟨hmem, hany, by
    simpa [anthropicStatus, AnthropicBackend.new] using hany⟩

/-- Witness for C10: the adapter built from demoTextCfg (endpoint
"http://x") — that endpoint is healthy with zero failures and both status
projections report healthy. -/
theorem C10_fresh_adapter_optimistic_witness :
    ((TextEndpoint.new "http://x").healthy = true ∧
      (TextEndpoint.new "http://x").consecutive_failures = 0) ∧
    (OpenAIBackendState.new demoTextCfg).status.healthy = true ∧
    (anthropicStatus (AnthropicBackend.new demoTextCfg)).healthy = true := by
  have h := C10_fresh_adapter_optimistic demoTextCfg (by decide)
  exact ⟨h.1 (TextEndpoint.new "http://x") (by decide), h.2.1, h.2.2⟩

/-- Rust str::split(char) over a character list: splits at every occurrence
of the separator, keeping empty pieces; the empty input yields one empty
piece. -/
def splitOnChar (c : Char) : List Char → List (List Char)
  | [] => [[]]
  | x :: xs =>
      if x = c then [] :: splitOnChar c xs
      else
        match splitOnChar c xs with
        | [] => [[x]]
        | h :: t => (x :: h) :: t

/-- Value of a decimal digit list read most-significant first, as
str::parse accumulates it. -/
def digitsToNat (l : List Char) : Nat :=
  l.foldl (fun acc c => 10 * acc + (c.toNat - 48)) 0

/-- Drop the optional leading sign accepted by Rust str::parse. -/
def stripLeadingPlus (l : List Char) : List Char :=
  match l with
  | [] => []
  | c :: rest => if c = '+' then rest else c :: rest

/-- ASCII decimal digit test (code points 48-57). -/
def isAsciiDigit (c : Char) : Bool :=
  decide (48 ≤ c.toNat) && decide (c.toNat ≤ 57)

/-- Rust str::parse::\<u32>: an optional leading \x27+\x27, then one or more
decimal digits whose value must fit in 32 bits; anything else is an
error. -/
def parseU32 (l : List Char) : Option Nat :=
  let ds := stripLeadingPlus l
  if ds.isEmpty then none
  else if ds.all isAsciiDigit then
    if digitsToNat ds < 2 ^ 32 then some (digitsToNat ds) else none
  else none

/-- GenerateImageRequest::parse_size (src/api/models.rs lines 63-72): split
the size string on \x27x\x27; with exactly two pieces, parse each piece as a
u32, each piece independently falling back to 1024; otherwise (1024, 1024). -/
def parse_size (size : String) : Nat × Nat :=
  match splitOnChar 'x' size.toList with
  | [w, h] => ((parseU32 w).getD 1024, (parseU32 h).getD 1024)
  | _ => (1024, 1024)

/-- Serde default of the `size` field (src/api/models.rs lines 53-55). -/
def default_size : String := "1024x1024"

/-- Counterexample for C7: the size string "5xa" has an unparseable height
component, yet parse_size keeps the parsed width and returns (5, 1024)
rather than the claimed (1024, 1024) — the components default
independently. -/
theorem C7_counterexample :
    parse_size "5xa" = (5, 1024) ∧
    parseU32 ("a".toList) = none ∧
    parse_size "5xa" ≠ (1024, 1024) := by
  decide

/-- Claim C7 as amended: when the size string splits on \x27x\x27 into
exactly two pieces, each piece that parses as a u32 contributes its value
and each piece that does not parse contributes 1024, independently of the
other; when it does not split into exactly two pieces the result is
(1024, 1024); in particular "invalid" parses to (1024, 1024), and the
omitted-field default is the string "1024x1024". -/
theorem C7_parse_size_defaults (s : String) (pa pb : List Char) :
    (splitOnChar 'x' s.toList = [pa, pb] →
      ((∀ w, parseU32 pa = some w → ∀ h, parseU32 pb = some h →
          parse_size s = (w, h)) ∧
       (parseU32 pa = none →
          parse_size s = (1024, (parseU32 pb).getD 1024)) ∧
       (parseU32 pb = none →
          parse_size s = ((parseU32 pa).getD 1024, 1024)))) ∧
    ((splitOnChar 'x' s.toList).length ≠ 2 → parse_size s = (1024, 1024)) ∧
    parse_size "invalid" = (1024, 1024) ∧
    default_size = "1024x1024" := by
  refine ⟨?_, ?_, by decide, rfl⟩
  · intro hsp
    have hsp2 : splitOnChar 'x' s.data = [pa, pb] := hsp
    refine ⟨?_, ?_, ?_⟩
    · intro w hw h hh
      simp [parse_size, hsp2, hw, hh]
    · intro hw
      simp [parse_size, hsp2, hw]
    · intro hh
      simp [parse_size, hsp2, hh]
  · intro hlen
    cases hsp : splitOnChar 'x' s.data with
    | nil => simp [parse_size, hsp]
    | cons a t =>
        cases t with
        | nil => simp [parse_size, hsp]
        | cons b t2 =>
            cases t2 with
            | nil =>
                refine absurd ?_ hlen
                show (splitOnChar 'x' s.data).length = 2
                simp [hsp]
            | cons d t3 => simp [parse_size, hsp]

/-- Witness for C7 (amended): "10x20" splits into two parseable pieces and
yields (10, 20); "1x2x3" splits into three pieces and yields the full
default. -/
theorem C7_parse_size_defaults_witness :
    parse_size "10x20" = (10, 20) ∧
    parse_size "1x2x3" = (1024, 1024) := by
  constructor
  · exact ((C7_parse_size_defaults "10x20" ("10".toList) ("20".toList)).1
      (by decide)).1 10 (by decide) 20 (by decide)
  · exact (C7_parse_size_defaults "1x2x3" [] []).2.1 (by decide)

/-- Rust char::to_lowercase restricted to ASCII, the only characters the
protocol and backend-type tables contain. -/
def asciiToLower (c : Char) : Char :=
  if 65 ≤ c.toNat && c.toNat ≤ 90 then Char.ofNat (c.toNat + 32) else c

/-- Rust str::to_lowercase (ASCII part) on a Lean string. -/
def lowerString (s : String) : String :=
  String.mk (s.toList.map asciiToLower)

/-- Protocol parsing of the add_backend handler (src/api/handlers.rs lines
105-112): lowercase, table lookup, default Http. -/
def parseProtocolField (s : String) : ProtocolType :=
  let t := lowerString s
  if t = "http" then ProtocolType.Http
  else if t = "grpc" then ProtocolType.Grpc
  else if t = "openai" then ProtocolType.OpenAI
  else if t = "anthropic" then ProtocolType.Anthropic
  else if t = "tgi" then ProtocolType.Tgi
  else ProtocolType.Http

/-- Backend-type parsing of the add_backend handler (src/api/handlers.rs
lines 115-120): lowercase, table lookup, default Image. -/
def parseBackendTypeField (s : String) : BackendType :=
  let t := lowerString s
  if t = "text" then BackendType.Text
  else if t = "image" then BackendType.Image
  else if t = "multi" then BackendType.Multi
  else BackendType.Image

/-- Claim C9: the management add-backend handler maps the protocol string
case-insensitively onto its enum with anything outside the five known
values defaulting to Http, and the backend-type string case-insensitively
onto its enum with anything outside the three known values defaulting to
Image. -/
theorem C9_management_enum_defaults (s : String) :
    (lowerString s = "http" → parseProtocolField s = ProtocolType.Http) ∧
    (lowerString s = "grpc" → parseProtocolField s = ProtocolType.Grpc) ∧
    (lowerString s = "openai" → parseProtocolField s = ProtocolType.OpenAI) ∧
    (lowerString s = "anthropic" →
      parseProtocolField s = ProtocolType.Anthropic) ∧
    (lowerString s = "tgi" → parseProtocolField s = ProtocolType.Tgi) ∧
    (lowerString s ∉ (["http", "grpc", "openai", "anthropic", "tgi"] :
        List String) → parseProtocolField s = ProtocolType.Http) ∧
    (lowerString s = "text" → parseBackendTypeField s = BackendType.Text) ∧
    (lowerString s = "image" → parseBackendTypeField s = BackendType.Image) ∧
    (lowerString s = "multi" → parseBackendTypeField s = BackendType.Multi) ∧
    (lowerString s ∉ (["text", "image", "multi"] : List String) →
      parseBackendTypeField s = BackendType.Image) := by
  refine ⟨?_, ?_, ?_, ?_, ?_, ?_, ?_, ?_, ?_, ?_⟩ <;> intro h
  case _ => unfold parseProtocolField; rw [h]; decide
  case _ => unfold parseProtocolField; rw [h]; decide
  case _ => unfold parseProtocolField; rw [h]; decide
  case _ => unfold parseProtocolField; rw [h]; decide
  case _ => unfold parseProtocolField; rw [h]; decide
  case _ =>
      simp only [List.mem_cons, List.not_mem_nil, or_false, not_or] at h
      obtain ⟨h1, h2, h3, h4, h5⟩ := h
      simp [parseProtocolField, h1, h2, h3, h4, h5]
  case _ => unfold parseBackendTypeField; rw [h]; decide
  case _ => unfold parseBackendTypeField; rw [h]; decide
  case _ => unfold parseBackendTypeField; rw [h]; decide
  case _ =>
      simp only [List.mem_cons, List.not_mem_nil, or_false, not_or] at h
      obtain ⟨h1, h2, h3⟩ := h
      simp [parseBackendTypeField, h1, h2, h3]

/-- Witness for C9: mixed-case known values map to their enum and unknown
values fall back to the defaults. -/
theorem C9_management_enum_defaults_witness :
    parseProtocolField "OpenAI" = ProtocolType.OpenAI ∧
    parseProtocolField "bogus" = ProtocolType.Http ∧
    parseBackendTypeField "TeXt" = BackendType.Text ∧
    parseBackendTypeField "bogus" = BackendType.Image := by
  refine ⟨?_, ?_, ?_, ?_⟩
  · exact (C9_management_enum_defaults "OpenAI").2.2.1 (by decide)
  · exact (C9_management_enum_defaults "bogus").2.2.2.2.2.1 (by decide)
  · exact (C9_management_enum_defaults "TeXt").2.2.2.2.2.2.1 (by decide)
  · exact (C9_management_enum_defaults "bogus").2.2.2.2.2.2.2.2.2 (by decide)

/-- Canonical most-significant-first decimal rendering of a natural number,
the spec-side `format` of the round-trip property. -/
def natDigits (n : Nat) : List Char :=
  if h : n < 10 then [Nat.digitChar n]
  else natDigits (n / 10) ++ [Nat.digitChar (n % 10)]
termination_by n
decreasing_by exact Nat.div_lt_self (by omega) (by omega)

/-- The spec's format(w, h): the string "\<w>x\<h>" in decimal. -/
def formatSize (w h : Nat) : String :=
  String.mk (natDigits w ++ 'x' :: natDigits h)

lemma natDigits_eq (n : Nat) :
    natDigits n = if n < 10 then [Nat.digitChar n]
      else natDigits (n / 10) ++ [Nat.digitChar (n % 10)] := by
  rw [natDigits]
  simp only [dite_eq_ite]

lemma digitChar_toNat (d : Nat) (h : d < 10) :
    (Nat.digitChar d).toNat = 48 + d := by
  interval_cases d <;> decide

lemma natDigits_bounds (n : Nat) :
    ∀ c ∈ natDigits n, 48 ≤ c.toNat ∧ c.toNat ≤ 57 := by
  induction n using Nat.strong_induction_on with
  | _ n ih =>
      rw [natDigits_eq]
      by_cases h : n < 10
      · simp only [if_pos h, List.mem_singleton]
        intro c hc
        rw [hc, digitChar_toNat n h]
        omega
      · simp only [if_neg h, List.mem_append, List.mem_singleton]
        intro c hc
        rcases hc with hc | hc
        · exact ih (n / 10) (Nat.div_lt_self (by omega) (by omega)) c hc
        · rw [hc, digitChar_toNat (n % 10) (Nat.mod_lt _ (by omega))]
          omega

lemma digitsToNat_append_one (l : List Char) (c : Char) :
    digitsToNat (l ++ [c]) = 10 * digitsToNat l + (c.toNat - 48) := by
  simp [digitsToNat, List.foldl_append]

lemma digitsToNat_natDigits (n : Nat) : digitsToNat (natDigits n) = n := by
  induction n using Nat.strong_induction_on with
  | _ n ih =>
      rw [natDigits_eq]
      by_cases h : n < 10
      · simp only [if_pos h]
        simp [digitsToNat, digitChar_toNat n h]
      · simp only [if_neg h]
        rw [digitsToNat_append_one,
          ih (n / 10) (Nat.div_lt_self (by omega) (by omega)),
          digitChar_toNat (n % 10) (Nat.mod_lt _ (by omega))]
        omega

lemma natDigits_ne_nil (n : Nat) : natDigits n ≠ [] := by
  rw [natDigits_eq]
  by_cases h : n < 10
  · simp [h]
  · simp [h]

lemma x_not_mem_natDigits (n : Nat) : 'x' ∉ natDigits n := by
  intro hmem
  have hb := natDigits_bounds n 'x' hmem
  have hx : ('x' : Char).toNat = 120 := by decide
  omega

lemma parseU32_natDigits (n : Nat) (h : n < 2 ^ 32) :
    parseU32 (natDigits n) = some n := by
  obtain ⟨d, ds, hd⟩ : ∃ d ds, natDigits n = d :: ds := by
    cases hnd : natDigits n with
    | nil => exact absurd hnd (natDigits_ne_nil n)
    | cons d ds => exact ⟨d, ds, rfl⟩
  have hdne : d ≠ '+' := by
    intro he
    have hb := natDigits_bounds n d (by rw [hd]; exact List.mem_cons_self d ds)
    have : ('+' : Char).toNat = 43 := by decide
    rw [he] at hb
    omega
  have hstrip : stripLeadingPlus (natDigits n) = natDigits n := by
    rw [hd]
    simp [stripLeadingPlus, hdne]
  have hempty : (natDigits n).isEmpty = false := by
    rw [hd]
    rfl
  have hall : (natDigits n).all isAsciiDigit = true := by
    rw [List.all_eq_true]
    intro c hc
    have hb := natDigits_bounds n c hc
    simp [isAsciiDigit]
    omega
  simp only [parseU32, hstrip, hempty, Bool.false_eq_true, if_false, hall,
    if_true, digitsToNat_natDigits n]
  rw [if_pos h]

lemma splitOnChar_no_sep (c : Char) (l : List Char) (h : c ∉ l) :
    splitOnChar c l = [l] := by
  induction l with
  | nil => rfl
  | cons x xs ih =>
      have hx : ¬ (x = c) := fun he => h (he ▸ List.mem_cons_self x xs)
      have hxs : c ∉ xs := fun hm => h (List.mem_cons_of_mem x hm)
      simp [splitOnChar, hx, ih hxs]

lemma splitOnChar_append (c : Char) (a b : List Char) (ha : c ∉ a)
    (hb : c ∉ b) : splitOnChar c (a ++ c :: b) = [a, b] := by
  induction a with
  | nil => simp [splitOnChar, splitOnChar_no_sep c b hb]
  | cons x xs ih =>
      have hx : ¬ (x = c) := fun he => ha (he ▸ List.mem_cons_self x xs)
      have hxs : c ∉ xs := fun hm => ha (List.mem_cons_of_mem x hm)
      simp [splitOnChar, hx, ih hxs]

/-- Claim C8 as amended: for positive w and h that fit in a u32 (below
2^32), parsing the formatted size string "\<w>x\<h>" returns exactly (w, h).
Beyond the u32 range the component parse overflows and falls back to 1024,
so the unrestricted round-trip fails. -/
theorem C8_parse_format_roundtrip (w h : Nat) (hw0 : 0 < w)
    (hwr : w < 2 ^ 32) (hh0 : 0 < h) (hhr : h < 2 ^ 32) :
    parse_size (formatSize w h) = (w, h) := by
  show (match splitOnChar 'x' (natDigits w ++ 'x' :: natDigits h) with
    | [a, b] => ((parseU32 a).getD 1024, (parseU32 b).getD 1024)
    | _ => (1024, 1024)) = (w, h)
  rw [splitOnChar_append 'x' (natDigits w) (natDigits h)
    (x_not_mem_natDigits w) (x_not_mem_natDigits h)]
  simp [parseU32_natDigits w hwr, parseU32_natDigits h hhr]

/-- Witness for C8 (amended): the in-range pair (640, 480) round-trips. -/
theorem C8_parse_format_roundtrip_witness :
    parse_size (formatSize 640 480) = (640, 480) :=
  C8_parse_format_roundtrip 640 480 (by decide) (by decide) (by decide)
    (by decide)

lemma natDigits_4 : natDigits 4 = ['4'] := by
  rw [natDigits_eq]
  decide

lemma natDigits_42 : natDigits 42 = ['4', '2'] := by
  rw [natDigits_eq, if_neg (by omega), show (42 : Nat) / 10 = 4 by norm_num,
    show (42 : Nat) % 10 = 2 by norm_num, natDigits_4]
  decide

lemma natDigits_429 : natDigits 429 = ['4', '2', '9'] := by
  rw [natDigits_eq, if_neg (by omega), show (429 : Nat) / 10 = 42 by norm_num,
    show (429 : Nat) % 10 = 9 by norm_num, natDigits_42]
  decide

lemma natDigits_4294 : natDigits 4294 = ['4', '2', '9', '4'] := by
  rw [natDigits_eq, if_neg (by omega),
    show (4294 : Nat) / 10 = 429 by norm_num,
    show (4294 : Nat) % 10 = 4 by norm_num, natDigits_429]
  decide

lemma natDigits_42949 : natDigits 42949 = ['4', '2', '9', '4', '9'] := by
  rw [natDigits_eq, if_neg (by omega),
    show (42949 : Nat) / 10 = 4294 by norm_num,
    show (42949 : Nat) % 10 = 9 by norm_num, natDigits_4294]
  decide

lemma natDigits_429496 :
    natDigits 429496 = ['4', '2', '9', '4', '9', '6'] := by
  rw [natDigits_eq, if_neg (by omega),
    show (429496 : Nat) / 10 = 42949 by norm_num,
    show (429496 : Nat) % 10 = 6 by norm_num, natDigits_42949]
  decide

lemma natDigits_4294967 :
    natDigits 4294967 = ['4', '2', '9', '4', '9', '6', '7'] := by
  rw [natDigits_eq, if_neg (by omega),
    show (4294967 : Nat) / 10 = 429496 by norm_num,
    show (4294967 : Nat) % 10 = 7 by norm_num, natDigits_429496]
  decide

lemma natDigits_42949672 :
    natDigits 42949672 = ['4', '2', '9', '4', '9', '6', '7', '2'] := by
  rw [natDigits_eq, if_neg (by omega),
    show (42949672 : Nat) / 10 = 4294967 by norm_num,
    show (42949672 : Nat) % 10 = 2 by norm_num, natDigits_4294967]
  decide

lemma natDigits_429496729 :
    natDigits 429496729 = ['4', '2', '9', '4', '9', '6', '7', '2', '9'] := by
  rw [natDigits_eq, if_neg (by omega),
    show (429496729 : Nat) / 10 = 42949672 by norm_num,
    show (429496729 : Nat) % 10 = 9 by norm_num, natDigits_42949672]
  decide

lemma natDigits_pow32 : natDigits 4294967296 =
    ['4', '2', '9', '4', '9', '6', '7', '2', '9', '6'] := by
  rw [natDigits_eq, if_neg (by omega),
    show (4294967296 : Nat) / 10 = 429496729 by norm_num,
    show (4294967296 : Nat) % 10 = 6 by norm_num, natDigits_429496729]
  decide

lemma natDigits_1 : natDigits 1 = ['1'] := by
  rw [natDigits_eq]
  decide

/-- Counterexample for C8: at w = 2^32 = 4294967296 (a positive integer)
and h = 1, the formatted string "4294967296x1" does not round-trip — the
width overflows the u32 parse and falls back to 1024, so parse_size
returns (1024, 1). -/
theorem C8_counterexample :
    parse_size (formatSize 4294967296 1) ≠ (4294967296, 1) ∧
    parse_size (formatSize 4294967296 1) = (1024, 1) := by
  have hfmt : formatSize 4294967296 1 = "4294967296x1" := by
    show String.mk (natDigits 4294967296 ++ 'x' :: natDigits 1) = _
    rw [natDigits_pow32, natDigits_1]
    rfl
  constructor
  · rw [hfmt]
    decide
  · rw [hfmt]
    decide

end GenImgServing
